import Mathlib

/-!
Verification of the sleep-and-lifestyle dashboard (`src/dashboard.py`)
against its natural-language specification.

The embedding models a dataset row as a `Record`, the pandas dataframe as a
`List Record`, and translates the two functions that carry all the logic:
`filter_dataframe` (the filter predicate evaluator, lines 181-197) and
`update_dashboard` (the reactive callback, lines 228-313).  Pandas column
values are embedded as exact rationals: every concrete value appearing in
the claims (6.5, 8.0, 7, 9, 5, 2) and every arithmetic step performed on
them by the code (sum, division by a count of 2) is exact in binary64, so
the rational model agrees with the float computation at each evaluated
input.  Python's `f"{x:.1f}"` formatting is modelled by rounding the exact
value to tenths with ties-to-even, which is what CPython does, and the
pandas mean of an empty column is modelled as `none` (pandas yields NaN,
which `:.1f` renders as the string "nan").
-/

/-- One dataset row.  `df` columns used by filters, statistics and charts:
`Sleep Duration`, `Quality of Sleep`, `Stress Level`,
`Physical Activity Level`, plus the synthetic `Sample ID` assigned at load
time (`df['Sample ID'] = range(1, len(df) + 1)`). -/
structure Record where
  sampleId : Nat
  sleepDuration : ℚ
  qualityOfSleep : ℚ
  stressLevel : ℤ
  physicalActivityLevel : String
deriving DecidableEq, Repr

/-- Model of `filter_dataframe(df, sleep_range=None, stress=None, activity=None)`
(dashboard.py lines 181-197): three sequential boolean-mask filters.
`if sleep_range:` applies the closed-range mask; `if stress and
len(stress) > 0:` applies the `.isin` mask, so `None` and the empty list
both skip it; likewise for `activity`. -/
def filter_dataframe (df : List Record) (sleep_range : Option (ℚ × ℚ))
    (stress : Option (List ℤ)) (activity : Option (List String)) : List Record :=
  let filtered := df
  let filtered := match sleep_range with
    | some sr => filtered.filter fun r =>
        decide (sr.1 ≤ r.sleepDuration) && decide (r.sleepDuration ≤ sr.2)
    | none => filtered
  let filtered := match stress with
    | some s => if 0 < s.length then
        filtered.filter (fun r => s.contains r.stressLevel) else filtered
    | none => filtered
  let filtered := match activity with
    | some a => if 0 < a.length then
        filtered.filter (fun r => a.contains r.physicalActivityLevel) else filtered
    | none => filtered
  filtered

/-- The conjunction of the three masks of `filter_dataframe` as a single
row predicate. -/
def keepRow (sleep_range : Option (ℚ × ℚ)) (stress : Option (List ℤ))
    (activity : Option (List String)) (r : Record) : Bool :=
  (match sleep_range with
   | some sr => decide (sr.1 ≤ r.sleepDuration) && decide (r.sleepDuration ≤ sr.2)
   | none => true)
  && (match stress with
      | some s => if 0 < s.length then s.contains r.stressLevel else true
      | none => true)
  && (match activity with
      | some a => if 0 < a.length then a.contains r.physicalActivityLevel else true
      | none => true)

theorem filter_dataframe_eq_filter (df : List Record) (sr : Option (ℚ × ℚ))
    (st : Option (List ℤ)) (ac : Option (List String)) :
    filter_dataframe df sr st ac = df.filter (fun r => keepRow sr st ac r) := by
  rcases sr with _ | sr <;> rcases st with _ | s <;> rcases ac with _ | a <;>
    simp only [filter_dataframe] <;>
    (try split_ifs) <;>
    simp [keepRow, List.filter_filter, Bool.and_comm, Bool.and_left_comm,
      Bool.and_assoc, *]

/-- Pandas `Series.mean()` over a column, embedded exactly: `none` when the
series is empty (pandas yields NaN), otherwise the exact rational mean. -/
def seriesMean (l : List ℚ) : Option ℚ :=
  if l.isEmpty then none else some (l.sum / l.length)

/-- Round an exact rational to the nearest integer with ties resolved to
the even integer, as IEEE-754 / CPython string formatting does. -/
def roundHalfEven (q : ℚ) : ℤ :=
  let f := ⌊q⌋
  let r := q - f
  if r < 1 / 2 then f
  else if 1 / 2 < r then f + 1
  else if f % 2 = 0 then f else f + 1

/-- Decimal rendering of `n` tenths, e.g. `fmtTenths 72 = "7.2"`. -/
def fmtTenths (n : ℤ) : String :=
  if n < 0 then
    "-" ++ toString ((-n).toNat / 10) ++ "." ++ toString ((-n).toNat % 10)
  else
    toString (n.toNat / 10) ++ "." ++ toString (n.toNat % 10)

/-- CPython `f"{x:.1f}"` on the result of a pandas mean: `"nan"` when the
mean is NaN (empty column), otherwise the exact value rounded to tenths
with ties-to-even.  Exact for every value this file evaluates, since those
values and their means are exactly representable in binary64. -/
def pyFormat1 (x : Option ℚ) : String :=
  match x with
  | none => "nan"
  | some q => fmtTenths (roundHalfEven (10 * q))

/-- Spec of `px.histogram(filtered, x='Sleep Duration', nbins=25, ...)` — the
declarative part of plot 1 (data column, bin count, title). -/
structure HistogramSpec where
  x : List ℚ
  nbins : Nat
  title : String
deriving DecidableEq, Repr

/-- Spec of `px.scatter(filtered, x='Sleep Duration', y='Quality of Sleep',
color='Stress Level', size='Stress Level',
hover_data=['Physical Activity Level'], ...)` — plot 2's encodings. -/
structure ScatterSpec where
  x : List ℚ
  y : List ℚ
  color : List ℤ
  size : List ℤ
  hoverData : List String
  title : String
deriving DecidableEq, Repr

/-- Spec of `px.box(filtered, x='Physical Activity Level', y='Sleep Duration',
color='Physical Activity Level', points='all', ...)` — plot 3's
encodings. -/
structure BoxSpec where
  x : List String
  y : List ℚ
  color : List String
  points : String
  title : String
deriving DecidableEq, Repr

/-- Spec of `px.density_heatmap(filtered, x='Sleep Duration',
y='Quality of Sleep', marginal_x='histogram', marginal_y='histogram',
...)` — plot 4's encodings. -/
structure HeatmapSpec where
  x : List ℚ
  y : List ℚ
  marginalX : String
  marginalY : String
  title : String
deriving DecidableEq, Repr

/-- The eight outputs returned by the `update_dashboard` callback, in
order: the four statistic-card children and the four figures. -/
structure DashboardOutput where
  statTotal : Nat
  statSleep : String
  statQuality : String
  statStress : String
  plotOverview : HistogramSpec
  plotStress : ScatterSpec
  plotActivity : BoxSpec
  plotComprehensive : HeatmapSpec
deriving DecidableEq, Repr

/-- Model of `update_dashboard(sleep_range, selected_stress, selected_activity)`
(dashboard.py lines 228-313): filters the module-level dataframe, computes
`len` and the three formatted column means (`f"{mean:.1f}h"`,
`f"{mean:.1f}/10"`, `f"{mean:.1f}/10"`), and builds the four chart
specifications from the filtered rows. -/
def update_dashboard (df : List Record) (sleep_range : Option (ℚ × ℚ))
    (selected_stress : Option (List ℤ)) (selected_activity : Option (List String)) :
    DashboardOutput :=
  let filtered := filter_dataframe df sleep_range selected_stress selected_activity
  let total_samples := filtered.length
  let avg_sleep := pyFormat1 (seriesMean (filtered.map (·.sleepDuration))) ++ "h"
  let avg_quality := pyFormat1 (seriesMean (filtered.map (·.qualityOfSleep))) ++ "/10"
  let avg_stress :=
    pyFormat1 (seriesMean (filtered.map (fun r => (r.stressLevel : ℚ)))) ++ "/10"
  { statTotal := total_samples
    statSleep := avg_sleep
    statQuality := avg_quality
    statStress := avg_stress
    plotOverview :=
      { x := filtered.map (·.sleepDuration)
        nbins := 25
        title := "Sleep Duration Distribution" }
    plotStress :=
      { x := filtered.map (·.sleepDuration)
        y := filtered.map (·.qualityOfSleep)
        color := filtered.map (·.stressLevel)
        size := filtered.map (·.stressLevel)
        hoverData := filtered.map (·.physicalActivityLevel)
        title := "Sleep Quality vs Duration by Stress Level" }
    plotActivity :=
      { x := filtered.map (·.physicalActivityLevel)
        y := filtered.map (·.sleepDuration)
        color := filtered.map (·.physicalActivityLevel)
        points := "all"
        title := "Sleep Duration by Physical Activity Level" }
    plotComprehensive :=
      { x := filtered.map (·.sleepDuration)
        y := filtered.map (·.qualityOfSleep)
        marginalX := "histogram"
        marginalY := "histogram"
        title := "Sleep Duration vs Quality Density Map" } }

/-- One interaction of the UI shell: the callback reads the module-level
dataframe and returns the eight outputs; nothing in its body assigns to
the module global (`filter_dataframe` starts from `df.copy()`), so the
dataframe after the interaction is the dataframe before it.  Threading
the global state through the cycle makes that explicit. -/
def dashboard_cycle (df : List Record) (sleep_range : Option (ℚ × ℚ))
    (selected_stress : Option (List ℤ)) (selected_activity : Option (List String)) :
    DashboardOutput × List Record :=
  (update_dashboard df sleep_range selected_stress selected_activity, df)

/-- Model of `pandas.Series.str.strip()` on a header cell: remove leading and
trailing whitespace.  Implemented structurally over the character list so
that concrete instances evaluate. -/
def strip (s : String) : String :=
  String.mk
    (((s.data.dropWhile Char.isWhitespace).reverse.dropWhile Char.isWhitespace).reverse)

/-- One cell of the frame as `pd.read_csv` delivers it after type
inference: a numeric value (columns whose every cell parses as a number
become float/int dtype; exact-rational embedding) or a string (cells of
object-dtype columns, which `read_csv` leaves unconverted).  Missing
values (NaN cells inside a column) are outside the model; the dashboard's
dataset has none. -/
inductive Cell where
  | num (q : ℚ)
  | str (s : String)
deriving DecidableEq, Repr

/-- Whether a cell is numeric. -/
def Cell.isNum : Cell → Bool
  | num _ => true
  | str _ => false

/-- Whether a cell is a string. -/
def Cell.isStr : Cell → Bool
  | num _ => false
  | str _ => true

/-- The string held by an object-dtype cell, if any. -/
def Cell.asString : Cell → Option String
  | num _ => none
  | str s => some s

/-- A parsed CSV as `pd.read_csv` would deliver it: a header row and
rectangular data rows of typed cells. -/
structure RawTable where
  headers : List String
  rows : List (List Cell)
deriving DecidableEq, Repr

/-- The table produced by dashboard.py lines 13-14 from a parsed file:
`df.columns = df.columns.str.strip()` trims every header and
`df['Sample ID'] = range(1, len(df) + 1)` appends a 1-based sequential
integer identifier in file order. -/
def loaded (t : RawTable) : RawTable :=
  { headers := t.headers.map strip ++ ["Sample ID"]
    rows := t.rows.enum.map fun p => p.2 ++ [Cell.num ((p.1 + 1 : ℕ) : ℚ)] }

/-- The load step (dashboard.py lines 12-14).  The input is `none` when
the file is missing or unreadable, in which case `pd.read_csv` raises and
the process aborts before anything else runs; otherwise the headers are
trimmed and the `Sample ID` column appended.  No column validation
happens here and there is no other effect. -/
def load_data (input : Option RawTable) : Option RawTable :=
  match input with
  | none => none
  | some t => some (loaded t)

/-- The columns the module body dereferences before `app.run_server`:
the `RangeSlider` reads `df['Sleep Duration']` and the two dropdowns
read `df['Stress Level']` and `df['Physical Activity Level']` while the
layout is being built.  `Quality of Sleep` is first touched inside the
callback, after serving has started. -/
def layout_columns : List String :=
  ["Sleep Duration", "Stress Level", "Physical Activity Level"]

/-- The columns downstream filters, statistics and charts require:
the three layout columns plus `Quality of Sleep` (statistics card 3,
plots 2 and 4). -/
def downstream_columns : List String :=
  ["Sleep Duration", "Quality of Sleep", "Stress Level", "Physical Activity Level"]

/-- Model of `df[c]` during layout construction: `none` is the `KeyError`
raised when `c` is not among the headers; otherwise the column's cells in
row order.  (Frames from `read_csv` are rectangular, so the ragged-row
default is never exercised.) -/
def column (t : RawTable) (c : String) : Option (List Cell) :=
  if t.headers.contains c then
    some (t.rows.map fun row => row.getD (t.headers.indexOf c) (Cell.str ""))
  else none

/-- Model of Python `int(s)` on a string: strip whitespace, then an
optional sign followed by one or more ASCII digits; anything else raises
`ValueError` (`none`).  (CPython also accepts digit-group underscores and
non-ASCII decimals; no theorem exercises those.) -/
def pyIntLit? (s : String) : Option ℤ :=
  match (strip s).data with
  | [] => none
  | c :: cs =>
      let p : ℤ × List Char :=
        if c = '-' then (-1, cs) else if c = '+' then (1, cs) else (1, c :: cs)
      if !p.2.isEmpty && p.2.all Char.isDigit then
        some (p.1 * p.2.foldl (fun n d => 10 * n + ((d.toNat : ℤ) - ('0'.toNat : ℤ))) 0)
      else none

/-- Whether building the `RangeSlider` marks succeeds (dashboard.py lines
56-66).  `range(int(col.min()), int(col.max()) + 1)` raises `ValueError`
when the column is empty (its `min()` is NaN, and `int(NaN)` fails) and
when `int()` is applied to a non-integer-literal extreme of an
object-dtype column (whose `min()`/`max()` are the lexicographic extreme
strings); a column mixing numbers and strings makes the pairwise `<` of
`min()` itself raise `TypeError`.  An all-numeric non-empty column always
succeeds, since `int` of a finite float truncates. -/
def sliderMarksOk (cells : List Cell) : Bool :=
  match cells with
  | [] => false
  | _ =>
      if cells.all Cell.isNum then true
      else if cells.all Cell.isStr then
        match cells.filterMap Cell.asString with
        | [] => false
        | s0 :: rest =>
            (pyIntLit? (rest.foldl min s0)).isSome &&
            (pyIntLit? (rest.foldl max s0)).isSome
      else false

/-- Whether `sorted(df[c].unique())` succeeds (dashboard.py lines 74-75
and 85-86): `sorted` compares the values pairwise, which succeeds for a
homogeneous column (all numbers or all strings, in particular when empty)
and raises `TypeError` on a column mixing the two. -/
def sortedOk (cells : List Cell) : Bool :=
  cells.all Cell.isNum || cells.all Cell.isStr

/-- Process startup up to the point of serving: the module body between
the load (lines 12-14) and `app.run_server`.  Building the layout
dereferences `df['Sleep Duration']` and constructs the slider marks
(lines 56-66), then dereferences `df['Stress Level']` and
`df['Physical Activity Level']` for the two dropdowns (lines 72-90); a
`KeyError`, `ValueError` or `TypeError` raised there aborts the process
before serving.  Returns the loaded table when the process reaches
`app.run_server`. -/
def startup (input : Option RawTable) : Option RawTable :=
  (load_data input).bind fun t =>
    (column t "Sleep Duration").bind fun sleep =>
      if sliderMarksOk sleep then
        (column t "Stress Level").bind fun stress =>
          if sortedOk stress then
            (column t "Physical Activity Level").bind fun act =>
              if sortedOk act then some t else none
          else none
      else none

/-- Pandas `df['Sleep Duration'].min()` for a non-empty frame: the least
sleep duration, folded left as pandas reduces the column.  (On an empty
frame pandas yields NaN; the 0 default is never exercised by the theorems,
which assume a non-empty dataset.) -/
def minSleep (ds : List Record) : ℚ :=
  match ds with
  | [] => 0
  | r :: t => t.foldl (fun m s => min m s.sleepDuration) r.sleepDuration

/-- Pandas `df['Sleep Duration'].max()` for a non-empty frame. -/
def maxSleep (ds : List Record) : ℚ :=
  match ds with
  | [] => 0
  | r :: t => t.foldl (fun m s => max m s.sleepDuration) r.sleepDuration

/-- The two-row dataset of the spec's worked scenario:
`[{duration:6.5, quality:7, stress:5, activity:"Low"},
{duration:8.0, quality:9, stress:2, activity:"High"}]`, with the 1-based
sample identifiers the loader would assign. -/
def sampleDataset : List Record :=
  [{ sampleId := 1, sleepDuration := 13 / 2, qualityOfSleep := 7,
     stressLevel := 5, physicalActivityLevel := "Low" },
   { sampleId := 2, sleepDuration := 8, qualityOfSleep := 9,
     stressLevel := 2, physicalActivityLevel := "High" }]

theorem length_filter_mono {α : Type} (l : List α) (p q : α → Bool)
    (h : ∀ x ∈ l, p x = true → q x = true) :
    (l.filter p).length ≤ (l.filter q).length := by
  induction l with
  | nil => simp
  | cons a t ih =>
      have ht : ∀ x ∈ t, p x = true → q x = true :=
        fun x hx => h x (List.mem_cons_of_mem a hx)
      have base := ih ht
      rcases hp : p a with _ | _
      · rcases hq : q a with _ | _ <;> simp [List.filter_cons, hp, hq] <;> omega
      · have hq := h a (List.mem_cons_self a t) hp
        simp only [List.filter_cons, hp, hq, if_true, List.length_cons]
        omega

theorem foldl_min_le_init (l : List Record) (a : ℚ) :
    l.foldl (fun m s => min m s.sleepDuration) a ≤ a := by
  induction l generalizing a with
  | nil => simp
  | cons h t ih => exact le_trans (ih _) (min_le_left _ _)

theorem foldl_min_le_mem (l : List Record) (a : ℚ) (x : Record) (hx : x ∈ l) :
    l.foldl (fun m s => min m s.sleepDuration) a ≤ x.sleepDuration := by
  induction l generalizing a with
  | nil => cases hx
  | cons h t ih =>
      rcases List.mem_cons.mp hx with rfl | hx'
      · exact le_trans (foldl_min_le_init t _) (min_le_right _ _)
      · exact ih _ hx'

theorem init_le_foldl_max (l : List Record) (a : ℚ) :
    a ≤ l.foldl (fun m s => max m s.sleepDuration) a := by
  induction l generalizing a with
  | nil => simp
  | cons h t ih => exact le_trans (le_max_left _ _) (ih _)

theorem mem_le_foldl_max (l : List Record) (a : ℚ) (x : Record) (hx : x ∈ l) :
    x.sleepDuration ≤ l.foldl (fun m s => max m s.sleepDuration) a := by
  induction l generalizing a with
  | nil => cases hx
  | cons h t ih =>
      rcases List.mem_cons.mp hx with rfl | hx'
      · exact le_trans (le_max_right _ _) (init_le_foldl_max t _)
      · exact ih _ hx'

theorem minSleep_le (ds : List Record) (r : Record) (hr : r ∈ ds) :
    minSleep ds ≤ r.sleepDuration := by
  match ds with
  | [] => cases hr
  | h :: t =>
      rcases List.mem_cons.mp hr with rfl | hr'
      · exact foldl_min_le_init t _
      · exact foldl_min_le_mem t _ r hr'

theorem le_maxSleep (ds : List Record) (r : Record) (hr : r ∈ ds) :
    r.sleepDuration ≤ maxSleep ds := by
  match ds with
  | [] => cases hr
  | h :: t =>
      rcases List.mem_cons.mp hr with rfl | hr'
      · exact init_le_foldl_max t _
      · exact mem_le_foldl_max t _ r hr'

theorem keepRow_iff (lo hi : ℚ) (st : List ℤ) (ac : List String) (r : Record) :
    keepRow (some (lo, hi)) (some st) (some ac) r = true ↔
      (lo ≤ r.sleepDuration ∧ r.sleepDuration ≤ hi) ∧
      (st = [] ∨ r.stressLevel ∈ st) ∧ (ac = [] ∨ r.physicalActivityLevel ∈ ac) := by
  rcases st with _ | ⟨s0, st'⟩ <;> rcases ac with _ | ⟨a0, ac'⟩ <;>
    simp [keepRow, and_assoc]

theorem keepRow_narrow (lo hi lo' hi' : ℚ) (st st' : List ℤ) (ac ac' : List String)
    (hlo : lo ≤ lo') (hhi : hi' ≤ hi)
    (hst : st' = st ∨ (st' ≠ [] ∧ ∀ x ∈ st', x ∈ st))
    (hac : ac' = ac ∨ (ac' ≠ [] ∧ ∀ x ∈ ac', x ∈ ac))
    (r : Record)
    (hk : keepRow (some (lo', hi')) (some st') (some ac') r = true) :
    keepRow (some (lo, hi)) (some st) (some ac) r = true := by
  rw [keepRow_iff] at hk ⊢
  obtain ⟨⟨h1, h2⟩, h3, h4⟩ := hk
  refine ⟨⟨le_trans hlo h1, le_trans h2 hhi⟩, ?_, ?_⟩
  · rcases hst with rfl | ⟨hne, hsub⟩
    · exact h3
    · rcases h3 with rfl | hmem
      · exact absurd rfl hne
      · exact Or.inr (hsub _ hmem)
  · rcases hac with rfl | ⟨hne, hsub⟩
    · exact h4
    · rcases h4 with rfl | hmem
      · exact absurd rfl hne
      · exact Or.inr (hsub _ hmem)

/-- Claim C1: for every dataset and every FilterState (sleep range
`[lo, hi]`, stress-level set, activity-level set), `filter_dataframe`
keeps a row if and only if the row's sleep duration lies within the
closed range (both endpoints included), the stress set is empty or
contains the row's stress level, and the activity set is empty or
contains the row's activity level; an empty selection set restricts
nothing. -/
theorem C1_conjunctive_filter (ds : List Record) (lo hi : ℚ) (st : List ℤ)
    (ac : List String) (r : Record) :
    r ∈ filter_dataframe ds (some (lo, hi)) (some st) (some ac) ↔
      r ∈ ds ∧ (lo ≤ r.sleepDuration ∧ r.sleepDuration ≤ hi) ∧
        (st = [] ∨ r.stressLevel ∈ st) ∧ (ac = [] ∨ r.physicalActivityLevel ∈ ac) := by
  rw [filter_dataframe_eq_filter]
  rcases st with _ | ⟨s0, st'⟩ <;> rcases ac with _ | ⟨a0, ac'⟩ <;>
    simp [keepRow, and_assoc]

/-- Claim C3: for every non-empty dataset, filtering with the sleep range
equal to `[dataset min, dataset max]` and both selection sets empty is
the identity. -/
theorem C3_full_range_identity (ds : List Record) (h : ds ≠ []) :
    filter_dataframe ds (some (minSleep ds, maxSleep ds)) (some []) (some []) = ds := by
  rw [filter_dataframe_eq_filter]
  refine List.filter_eq_self.mpr fun r hr => ?_
  simp [keepRow, minSleep_le ds r hr, le_maxSleep ds r hr]

theorem C3_full_range_identity_witness :
    sampleDataset ≠ [] ∧
      filter_dataframe sampleDataset
        (some (minSleep sampleDataset, maxSleep sampleDataset))
        (some []) (some []) = sampleDataset :=
  ⟨by simp [sampleDataset],
   C3_full_range_identity sampleDataset (by simp [sampleDataset])⟩

/-- Claim C4: for every dataset and every FilterState, the output of
`filter_dataframe` is a subsequence of the dataset: every output row is a
row of the input with unchanged attributes, original order is preserved,
no row is duplicated or synthesized, and (the embedding being pure, with
the source starting from `df.copy()`) the input list is untouched. -/
theorem C4_filtered_is_subsequence (ds : List Record) (sr : Option (ℚ × ℚ))
    (st : Option (List ℤ)) (ac : Option (List String)) :
    List.Sublist (filter_dataframe ds sr st ac) ds := by
  rw [filter_dataframe_eq_filter]
  exact List.filter_sublist ds

/-- Claim C5: filtering is monotone with respect to narrowing — shrinking
the sleep range and/or shrinking a selection set to a non-empty subset
(the spec's "empty means no restriction" policy makes the empty set the
widest state, not the narrowest) never increases the number of filtered
rows. -/
theorem C5_narrowing_monotone (ds : List Record) (lo hi lo' hi' : ℚ)
    (st st' : List ℤ) (ac ac' : List String)
    (hlo : lo ≤ lo') (hhi : hi' ≤ hi)
    (hst : st' = st ∨ (st' ≠ [] ∧ ∀ x ∈ st', x ∈ st))
    (hac : ac' = ac ∨ (ac' ≠ [] ∧ ∀ x ∈ ac', x ∈ ac)) :
    (filter_dataframe ds (some (lo', hi')) (some st') (some ac')).length ≤
      (filter_dataframe ds (some (lo, hi)) (some st) (some ac)).length := by
  rw [filter_dataframe_eq_filter, filter_dataframe_eq_filter]
  exact length_filter_mono ds _ _ fun x _ hx =>
    keepRow_narrow lo hi lo' hi' st st' ac ac' hlo hhi hst hac x hx

theorem C5_narrowing_monotone_witness :
    (0 : ℚ) ≤ 7 ∧ (8 : ℚ) ≤ 10 ∧
      (filter_dataframe sampleDataset (some (7, 8)) (some []) (some [])).length ≤
        (filter_dataframe sampleDataset (some (0, 10)) (some []) (some [])).length :=
  ⟨by decide, by decide,
   C5_narrowing_monotone sampleDataset 0 10 7 8 [] [] [] []
     (by decide) (by decide) (Or.inl rfl) (Or.inl rfl)⟩

/-- Claim C6: filtering is idempotent — applying `filter_dataframe` to
its own output with the same FilterState returns that output unchanged. -/
theorem C6_filter_idempotent (ds : List Record) (sr : Option (ℚ × ℚ))
    (st : Option (List ℤ)) (ac : Option (List String)) :
    filter_dataframe (filter_dataframe ds sr st ac) sr st ac =
      filter_dataframe ds sr st ac := by
  rw [filter_dataframe_eq_filter, filter_dataframe_eq_filter, List.filter_filter]
  exact List.filter_congr fun x _ => by cases h : keepRow sr st ac x <;> simp [h]

/-- The filter evaluator with the range predicate block omitted: the
reference point for claim C9's "same as omitting the range predicate
entirely". -/
def filter_dataframe_norange (df : List Record) (stress : Option (List ℤ))
    (activity : Option (List String)) : List Record :=
  let filtered := df
  let filtered := match stress with
    | some s => if 0 < s.length then
        filtered.filter (fun r => s.contains r.stressLevel) else filtered
    | none => filtered
  let filtered := match activity with
    | some a => if 0 < a.length then
        filtered.filter (fun r => a.contains r.physicalActivityLevel) else filtered
    | none => filtered
  filtered

/-- Claim C9: at the public interface of `filter_dataframe`, an absent
sleep range (`None`) is accepted and treated as no restriction — for
every dataset and every choice of selection sets, the call with
`sleep_range = none` returns exactly what the evaluator without the range
block returns, so every row passes the range test. -/
theorem C9_none_range_unrestricted (ds : List Record) (st : Option (List ℤ))
    (ac : Option (List String)) :
    filter_dataframe ds none st ac = filter_dataframe_norange ds st ac := rfl

/-- Claim C10: the recompute cycle is deterministic — for a fixed loaded
dataset, running the callback a second time with the same filter inputs,
on the dataset state left behind by the first run, produces the same
eight outputs (count, three formatted mean strings, four chart
specifications), and the dataset state is unchanged by both runs. -/
theorem C10_deterministic_recompute (ds : List Record) (sr : Option (ℚ × ℚ))
    (st : Option (List ℤ)) (ac : Option (List String)) :
    (dashboard_cycle (dashboard_cycle ds sr st ac).2 sr st ac).1 =
      (dashboard_cycle ds sr st ac).1 ∧
    (dashboard_cycle (dashboard_cycle ds sr st ac).2 sr st ac).2 = ds :=
  ⟨rfl, rfl⟩

/-- Claim C2 (behaviour of the code at the failing input): with the sleep
range `[0, 1]` no sample-dataset row passes, the count statistic is 0,
and the three mean cards receive the strings `"nanh"`, `"nan/10"`,
`"nan/10"` — the formatted NaN of an empty-column mean — rather than an
`"N/A"` sentinel.  The code does not raise, but it does propagate the
undefined value to the display layer, contradicting the claim. -/
theorem C2_empty_stats_propagate_nan :
    (update_dashboard sampleDataset (some (0, 1)) (some []) (some [])).statTotal = 0 ∧
    (update_dashboard sampleDataset (some (0, 1)) (some []) (some [])).statSleep = "nanh" ∧
    (update_dashboard sampleDataset (some (0, 1)) (some []) (some [])).statQuality =
      "nan/10" ∧
    (update_dashboard sampleDataset (some (0, 1)) (some []) (some [])).statStress =
      "nan/10" ∧
    "nanh" ≠ "N/A" ∧ "nan/10" ≠ "N/A" := by
  refine ⟨?_, ?_, ?_, ?_, by decide, by decide⟩ <;>
    norm_num [update_dashboard, filter_dataframe, sampleDataset, seriesMean,
      pyFormat1] <;> rfl

/-- A readable input file whose header lacks `Quality of Sleep`, a column
required by the statistics summarizer and by charts 2 and 4; its one data
row is well typed (numeric `Sleep Duration` and `Stress Level`,
categorical activity), so layout construction succeeds. -/
def qosMissingTable : RawTable :=
  { headers := ["Sleep Duration", "Stress Level", "Physical Activity Level"]
    rows := [[Cell.num 7, Cell.num 5, Cell.str "Low"]] }

/-- Claim C7 counterexample: on a readable file missing the
`Quality of Sleep` column — a column required by downstream statistics
and charts — startup succeeds and the process begins serving, so the
loader does not fail "iff a required column is missing" as claimed. -/
theorem C7_counterexample_qos_not_checked :
    (startup (some qosMissingTable)).isSome = true ∧
      qosMissingTable.headers.contains "Quality of Sleep" = false := by decide

/-- A readable input file with a `Sleep Duration` column and a data row
but no `Stress Level` column: layout construction raises `KeyError` at
the stress dropdown. -/
def noStressTable : RawTable :=
  { headers := ["Sleep Duration", "Physical Activity Level"]
    rows := [[Cell.num 7, Cell.str "Low"]] }

/-- A readable header-only file: all three layout columns are present but
there are no data rows, so `int(df['Sleep Duration'].min())` is `int` of
NaN and raises `ValueError` while the slider marks are built
(dashboard.py lines 62-64). -/
def headerOnlyTable : RawTable :=
  { headers := ["Sleep Duration", "Stress Level", "Physical Activity Level"]
    rows := [] }

/-- Claim C7 as amended: the load step itself (lines 12-14) performs no
column validation — on any readable parsed file it returns the table with
whitespace-stripped headers plus a `Sample ID` column holding the 1-based
position of each row in file order, with no other effect, and it fails
only when the file is missing or unreadable.  Startup still aborts before
serving when the file is missing or unreadable, when any of the three
columns dereferenced during layout construction (`Sleep Duration`,
`Stress Level`, `Physical Activity Level`) is absent from the loaded
headers, and also on layout failures unrelated to column presence, such
as a readable zero-row file (`int` of the NaN column minimum raises while
the slider marks are built); a missing `Quality of Sleep` column does not
abort startup. -/
theorem C7_amended_startup_abort :
    startup none = none ∧
    (∀ t : RawTable, load_data (some t) =
      some { headers := t.headers.map strip ++ ["Sample ID"]
             rows := t.rows.enum.map fun p => p.2 ++ [Cell.num ((p.1 + 1 : ℕ) : ℚ)] }) ∧
    (∀ t : RawTable, ∀ c ∈ layout_columns,
      (t.headers.map strip ++ ["Sample ID"]).contains c = false →
      startup (some t) = none) ∧
    (∀ t : RawTable, t.rows = [] → startup (some t) = none) := by
  refine ⟨rfl, fun t => rfl, fun t c hc hmiss => ?_, fun t hrows => ?_⟩
  · have hcol : ∀ c, (loaded t).headers.contains c = false → column (loaded t) c = none :=
      fun c h => by
        simp [column]
        simpa using h
    have hload : (loaded t).headers = t.headers.map strip ++ ["Sample ID"] := rfl
    simp only [startup, load_data, Option.some_bind]
    simp only [layout_columns, List.mem_cons, List.not_mem_nil, or_false] at hc
    rcases hc with rfl | rfl | rfl
    · rw [hcol _ (hload ▸ hmiss)]
      rfl
    · rcases hsd : column (loaded t) "Sleep Duration" with _ | sleep
      · rfl
      · simp only [Option.some_bind]
        split_ifs
        · rw [hcol _ (hload ▸ hmiss)]
          rfl
        · rfl
    · rcases hsd : column (loaded t) "Sleep Duration" with _ | sleep
      · rfl
      · simp only [Option.some_bind]
        split_ifs
        · rcases hst : column (loaded t) "Stress Level" with _ | stress
          · rfl
          · simp only [Option.some_bind]
            split_ifs
            · rw [hcol _ (hload ▸ hmiss)]
              rfl
            · rfl
        · rfl
  · have hrows' : (loaded t).rows = [] := by simp [loaded, hrows]
    simp only [startup, load_data, Option.some_bind]
    rcases hsd : column (loaded t) "Sleep Duration" with _ | sleep
    · rfl
    · have hsleep : sleep = [] := by
        rcases hc : (loaded t).headers.contains "Sleep Duration" with _ | _ <;>
          simp [column, hc, hrows'] at hsd <;> simp [hsd.symm]
      simp only [Option.some_bind, hsleep]
      rfl

theorem C7_amended_startup_abort_witness :
    ("Stress Level" ∈ layout_columns ∧
      (noStressTable.headers.map strip ++ ["Sample ID"]).contains "Stress Level" = false ∧
      startup (some noStressTable) = none) ∧
    (headerOnlyTable.rows = [] ∧ startup (some headerOnlyTable) = none) :=
  ⟨⟨by decide, by decide,
    C7_amended_startup_abort.2.2.1 noStressTable "Stress Level" (by decide) (by decide)⟩,
   ⟨rfl, C7_amended_startup_abort.2.2.2 headerOnlyTable rfl⟩⟩

/-- Claim C8 counterexample: on the spec's two-row scenario the displayed
mean sleep duration is not 7.3 — the exact mean is 7.25 and the code's
one-decimal formatting rounds ties to even, producing `"7.2h"`. -/
theorem C8_counterexample_mean_formats_to_7_2 :
    (update_dashboard sampleDataset (some (13 / 2, 8)) (some []) (some [])).statSleep ≠
      "7.3h" := by
  have h : (update_dashboard sampleDataset (some (13 / 2, 8)) (some [])
      (some [])).statSleep = "7.2h" := by
    norm_num [update_dashboard, filter_dataframe, sampleDataset, seriesMean, pyFormat1,
      roundHalfEven, fmtTenths]
    decide
  rw [h]
  decide

/-- Claim C8 as amended: for the two-row scenario dataset with
FilterState `{range: [6.5, 8.0], stress: {}, activity: {}}` the filtered
subsequence contains both rows and the count statistic is 2, but the mean
sleep duration card shows `"7.2h"`: the exact mean 7.25 is formatted to
one decimal with ties-to-even, giving 7.2 rather than the claimed 7.3. -/
theorem C8_scenario_amended :
    filter_dataframe sampleDataset (some (13 / 2, 8)) (some []) (some []) = sampleDataset ∧
    (update_dashboard sampleDataset (some (13 / 2, 8)) (some []) (some [])).statTotal = 2 ∧
    (update_dashboard sampleDataset (some (13 / 2, 8)) (some []) (some [])).statSleep =
      "7.2h" := by
  refine ⟨?_, ?_, ?_⟩ <;>
    (norm_num [update_dashboard, filter_dataframe, sampleDataset, seriesMean, pyFormat1,
      roundHalfEven, fmtTenths]) <;> decide
